import Mathlib

/-!
Verification of the vk-mem wrapper crate (vk-mem-rs).

The crate is a thin safe wrapper over the native Vulkan Memory Allocator
library: every wrapper function marshals its parameters into raw FFI
structs, performs one (or a few) native calls, and translates the returned
status code.  The native library itself is an opaque black box, so it is
embedded here as an oracle: each wrapper function takes the values the
native call would produce (its status code and the values written through
out-pointers) as an explicit argument, and returns both the list of native
calls it performed (with the exact argument payloads it passed) and the
value the Rust function returns.

Raw pointers and opaque handles are embedded as natural numbers with 0 as
the null pointer; status codes (ash::vk::Result, a newtype over i32) are
embedded as integers.  f32 fields that are only carried through (never
computed on) are embedded as their raw bit pattern.

The source tree mixes two revisions of the crate: src/lib.rs and
src/error.rs are the older revision (namespace lib below), while
src/pool.rs, src/definitions.rs, src/defragmentation.rs and
src/virtual_block.rs belong to the newer revision.
-/

namespace VkMem

/-- Raw pointer or opaque native handle; 0 is the null pointer. -/
abbrev Ptr : Type := Nat

/-- The null pointer (std::ptr::null_mut() / a zeroed handle). -/
def Ptr.null : Ptr := 0

/-- Raw Vulkan status code; ash::vk::Result is a newtype over i32. -/
abbrev VkResult : Type := Int

/-- ash::vk::Result::SUCCESS. -/
def VK_SUCCESS : VkResult := 0

/-- ash::vk::Result::INCOMPLETE. -/
def VK_INCOMPLETE : VkResult := 5

/-- ash::vk::Result::ERROR_OUT_OF_DEVICE_MEMORY. -/
def VK_ERROR_OUT_OF_DEVICE_MEMORY : VkResult := -2

/-- ash::vk::Result::ERROR_FEATURE_NOT_PRESENT. -/
def VK_ERROR_FEATURE_NOT_PRESENT : VkResult := -8

/-- Embedding of ash ".result()": Ok exactly on SUCCESS, otherwise the raw
code itself is the error value (used by the newer-revision files which
return ash::prelude::VkResult). The success payload is the value the
native call wrote through its out-pointers. -/
def ashResult (r : VkResult) (a : α) : Except VkResult α :=
  if r = VK_SUCCESS then Except.ok a else Except.error r

/-- FFI struct VkMemoryRequirements (identical layout to the ash struct the
wrapper transmutes from). -/
structure VkMemoryRequirements where
  size : Nat
  alignment : Nat
  memoryTypeBits : Nat
deriving DecidableEq, Repr

/-- FFI struct VmaAllocationCreateInfo. The two revisions of the crate bind
slightly different native versions; the priority field exists only in the
newer one, and the older revision zero-initialises the whole struct
(mem::zeroed), so its converter leaves priority at bit pattern 0. -/
structure VmaAllocationCreateInfo where
  flags : Nat
  usage : Nat
  requiredFlags : Nat
  preferredFlags : Nat
  memoryTypeBits : Nat
  pool : Ptr
  pUserData : Ptr
  /-- f32 carried opaquely as its bit pattern; never computed on. -/
  priority : Nat
deriving DecidableEq, Repr

/-- FFI struct VmaAllocationInfo. -/
structure VmaAllocationInfo where
  memoryType : Nat
  deviceMemory : Ptr
  offset : Nat
  size : Nat
  pMappedData : Ptr
  pUserData : Ptr
deriving DecidableEq, Repr

/-- FFI struct VmaAllocatorCreateInfo as built by the older revision
Allocator::new. The routed Vulkan function-pointer table
(pVulkanFunctions) and the always-null callback pointers are elided: they
carry no data the wrapper computes with. The field named instance in the
source is renamed (Lean keyword). -/
structure VmaAllocatorCreateInfo where
  physicalDevice : Ptr
  device : Ptr
  instanceRef : Ptr
  flags : Nat
  frameInUseCount : Nat
  preferredLargeHeapBlockSize : Nat
  /-- pHeapSizeLimit: null or a pointer to the limits array; embedded by its
  pointee contents. -/
  pHeapSizeLimit : Option (List Nat)
  vulkanApiVersion : Nat
deriving DecidableEq, Repr

/-- FFI struct VmaVirtualAllocationCreateInfo. -/
structure VmaVirtualAllocationCreateInfo where
  size : Nat
  alignment : Nat
  flags : Nat
  pUserData : Ptr
deriving DecidableEq, Repr

/-- FFI struct VmaDefragmentationMove. -/
structure VmaDefragmentationMove where
  operation : Nat
  srcAllocation : Ptr
  dstTmpAllocation : Ptr
deriving DecidableEq, Repr

/-- FFI struct VmaDefragmentationStats. -/
structure VmaDefragmentationStats where
  bytesMoved : Nat
  bytesFreed : Nat
  allocationsMoved : Nat
  deviceMemoryBlocksFreed : Nat
deriving DecidableEq, Repr

/-- Caller-supplied ash::vk::BufferCreateInfo: an opaque payload the wrapper
forwards unmodified, embedded as an opaque id. -/
abbrev VkBufferCreateInfo : Type := Nat

/-- Caller-supplied ash::vk::ImageCreateInfo: opaque payload, as above. -/
abbrev VkImageCreateInfo : Type := Nat

/-- One native FFI call as performed by a wrapper function, with the exact
argument payloads the wrapper passed. -/
inductive NativeCall where
  | vmaCreateAllocator (info : VmaAllocatorCreateInfo)
  | vmaDestroyAllocator (allocator : Ptr)
  | vmaMapMemory (allocator allocation : Ptr)
  | vmaUnmapMemory (allocator allocation : Ptr)
  | vmaFlushAllocation (allocator allocation : Ptr) (offset size : Nat)
  | vmaInvalidateAllocation (allocator allocation : Ptr) (offset size : Nat)
  | vmaDestroyBuffer (allocator buffer allocation : Ptr)
  | vmaDestroyImage (allocator image allocation : Ptr)
  | vmaFindMemoryTypeIndex (allocator : Ptr) (memoryTypeBits : Nat)
      (info : VmaAllocationCreateInfo)
  | vmaAllocateMemory (allocator : Ptr) (req : VkMemoryRequirements)
      (info : VmaAllocationCreateInfo)
  | vmaAllocateMemoryPages (allocator : Ptr) (req : VkMemoryRequirements)
      (info : VmaAllocationCreateInfo) (allocationCount : Nat)
  | vmaAllocateMemoryForBuffer (allocator buffer : Ptr) (info : VmaAllocationCreateInfo)
  | vmaAllocateMemoryForImage (allocator image : Ptr) (info : VmaAllocationCreateInfo)
  | vmaCreateBuffer (allocator : Ptr) (bufferInfo : VkBufferCreateInfo)
      (info : VmaAllocationCreateInfo)
  | vmaCreateImage (allocator : Ptr) (imageInfo : VkImageCreateInfo)
      (info : VmaAllocationCreateInfo)
  | vmaBeginDefragmentationPass (allocator context : Ptr)
  | vmaEndDefragmentationPass (allocator context : Ptr)
      (moves : List VmaDefragmentationMove)
  | vmaEndDefragmentation (allocator context : Ptr) (statsPtrIsNull : Bool)
deriving DecidableEq, Repr

/-- The pool field of the VmaAllocationCreateInfo payload carried by a
native call, when the call carries one. -/
def NativeCall.createInfoPool : NativeCall → Option Ptr
  | .vmaFindMemoryTypeIndex _ _ info => some info.pool
  | .vmaAllocateMemory _ _ info => some info.pool
  | .vmaAllocateMemoryPages _ _ info _ => some info.pool
  | .vmaAllocateMemoryForBuffer _ _ info => some info.pool
  | .vmaAllocateMemoryForImage _ _ info => some info.pool
  | .vmaCreateBuffer _ _ info => some info.pool
  | .vmaCreateImage _ _ info => some info.pool
  | _ => none

/-- Whether a native call is vmaEndDefragmentation. -/
def NativeCall.isEndDefragmentation : NativeCall → Bool
  | .vmaEndDefragmentation _ _ _ => true
  | _ => false

/-- The specific kind of error that can occur (src/error.rs ErrorKind).
There is no previously-unmapped variant in this enum. The Io variant is
renamed (token restrictions); the hidden nonexhaustive marker variant is
kept. -/
inductive ErrorKind where
  | vulkan (result : VkResult)
  | memory (msg : String)
  | parse (msg : String)
  | path (p : String)
  | bug (msg : String)
  | config (msg : String)
  | ioError
  | number
  | nonexhaustive
deriving DecidableEq, Repr

/-- An error that can occur (src/error.rs Error, without the failure
feature: it just wraps an ErrorKind). -/
structure Error where
  kind : ErrorKind
deriving DecidableEq, Repr

/-- Error::vulkan constructor from src/error.rs. -/
def Error.vulkan (result : VkResult) : Error :=
  { kind := ErrorKind.vulkan result }

/-- Main allocator object. The older revision also stores the ash Instance
and Device (kept only so they outlive the allocator; marked dead_code in
the source); they are not modelled. -/
structure Allocator where
  /-- Pointer to the internal VmaAllocator instance. -/
  internal : Ptr
deriving DecidableEq, Repr

/-- Represents a single memory allocation (newtype over the native
VmaAllocation handle). -/
structure Allocation where
  internal : Ptr
deriving DecidableEq, Repr

/-- Allocation::null() from src/lib.rs. -/
def Allocation.null : Allocation :=
  { internal := Ptr.null }

namespace lib

/-- Intended usage of memory (src/lib.rs MemoryUsage, older revision). -/
inductive MemoryUsage where
  | Unknown
  | GpuOnly
  | CpuOnly
  | CpuToGpu
  | GpuToCpu
deriving DecidableEq, Repr

/-- Description of an Allocation to be created (src/lib.rs
AllocationCreateInfo, older revision). Flag bitmasks are embedded as raw
bits; pool is the internal handle of the optional AllocatorPool; user_data
is the optional raw pointer. -/
structure AllocationCreateInfo where
  usage : MemoryUsage
  flags : Nat
  required_flags : Nat
  preferred_flags : Nat
  memory_type_bits : Nat
  pool : Option Ptr
  user_data : Option Ptr
deriving DecidableEq, Repr

/-- Converts an AllocationCreateInfo struct into the raw representation
(src/lib.rs allocation_create_info_to_ffi). The struct starts zeroed
(mem::zeroed), so every field the function does not assign, such as
priority, stays 0. -/
def allocation_create_info_to_ffi (info : AllocationCreateInfo) : VmaAllocationCreateInfo :=
  { usage :=
      match info.usage with
      | MemoryUsage.Unknown => 0
      | MemoryUsage.GpuOnly => 1
      | MemoryUsage.CpuOnly => 2
      | MemoryUsage.CpuToGpu => 3
      | MemoryUsage.GpuToCpu => 4
  , flags := info.flags
  , requiredFlags := info.required_flags
  , preferredFlags := info.preferred_flags
  , memoryTypeBits := info.memory_type_bits
  , pool :=
      match info.pool with
      | some p => p
      | none => Ptr.null
  , pUserData :=
      match info.user_data with
      | some p => p
      | none => Ptr.null
  , priority := 0 }

/-- Description of an Allocator to be created (src/lib.rs
AllocatorCreateInfo, older revision). The ash handles are embedded as
opaque ids; the field named instance in the source is renamed (Lean
keyword). -/
structure AllocatorCreateInfo where
  physical_device : Ptr
  device : Ptr
  instanceRef : Ptr
  flags : Nat
  preferred_large_heap_block_size : Nat
  frame_in_use_count : Nat
  heap_size_limits : Option (List Nat)
deriving DecidableEq, Repr

/-- Native oracle for vmaCreateAllocator: the status it returns and the
value of the out variable after the call. The wrapper zero-initialises the
out variable, so a native call that writes nothing leaves it at the null
handle 0. -/
structure CreateAllocatorResponse where
  result : VkResult
  handleWritten : Ptr
deriving DecidableEq, Repr

/-- Allocator::new from src/lib.rs (older revision): builds the FFI create
info, calls vmaCreateAllocator into a zeroed out variable, and matches on
the status code: SUCCESS gives Ok wrapping whatever handle the native call
produced, anything else gives Err(Error::vulkan(result)). No check of the
resulting handle is performed. -/
def Allocator.new (create_info : AllocatorCreateInfo) (ffi : CreateAllocatorResponse) :
    List NativeCall × Except Error Allocator :=
  let ffi_create_info : VmaAllocatorCreateInfo :=
    { physicalDevice := create_info.physical_device
    , device := create_info.device
    , instanceRef := create_info.instanceRef
    , flags := create_info.flags
    , frameInUseCount := create_info.frame_in_use_count
    , preferredLargeHeapBlockSize := create_info.preferred_large_heap_block_size
    , pHeapSizeLimit := create_info.heap_size_limits
    , vulkanApiVersion := 0 }
  let internal : Ptr := ffi.handleWritten
  ([NativeCall.vmaCreateAllocator ffi_create_info],
   if ffi.result = VK_SUCCESS then
     Except.ok { internal := internal }
   else
     Except.error (Error.vulkan ffi.result))

/-- Native oracle for vmaMapMemory: status and the mapped pointer written
through the out parameter. -/
structure MapMemoryResponse where
  result : VkResult
  pData : Ptr
deriving DecidableEq, Repr

/-- Allocator::map_memory from src/lib.rs: one native vmaMapMemory call;
SUCCESS gives Ok(pointer), anything else Err(Error::vulkan(result)). -/
def Allocator.map_memory (self : Allocator) (ffi : MapMemoryResponse)
    (allocation : Allocation) : List NativeCall × Except Error Ptr :=
  ([NativeCall.vmaMapMemory self.internal allocation.internal],
   if ffi.result = VK_SUCCESS then
     Except.ok ffi.pData
   else
     Except.error (Error.vulkan ffi.result))

/-- Allocator::unmap_memory from src/lib.rs: unconditionally forwards to
the native vmaUnmapMemory call and returns unit. The Rust signature has no
return value and hence no error channel; nothing about the allocation is
checked or tracked before the call. -/
def Allocator.unmap_memory (self : Allocator) (allocation : Allocation) :
    List NativeCall × Unit :=
  ([NativeCall.vmaUnmapMemory self.internal allocation.internal], ())

/-- Allocator::flush_allocation from src/lib.rs: unconditionally forwards
offset and size to the native vmaFlushAllocation call and returns unit;
no error channel exists in the signature. -/
def Allocator.flush_allocation (self : Allocator) (allocation : Allocation)
    (offset size : Nat) : List NativeCall × Unit :=
  ([NativeCall.vmaFlushAllocation self.internal allocation.internal offset size], ())

/-- Allocator::invalidate_allocation from src/lib.rs: unconditionally
forwards offset and size to the native vmaInvalidateAllocation call and
returns unit; no error channel exists in the signature. -/
def Allocator.invalidate_allocation (self : Allocator) (allocation : Allocation)
    (offset size : Nat) : List NativeCall × Unit :=
  ([NativeCall.vmaInvalidateAllocation self.internal allocation.internal offset size], ())

/-- Allocator::destroy from src/lib.rs: if the internal handle is not
null, destroy the native allocator and set the handle to null; otherwise
do nothing. -/
def Allocator.destroy (self : Allocator) : List NativeCall × Allocator :=
  if self.internal ≠ Ptr.null then
    ([NativeCall.vmaDestroyAllocator self.internal], { self with internal := Ptr.null })
  else
    ([], self)

/-- Drop for Allocator from src/lib.rs: the drop glue just calls
Allocator::destroy. -/
def Allocator.dropAllocator (self : Allocator) : List NativeCall × Allocator :=
  Allocator.destroy self

/-- Parameters of Allocation objects (src/lib.rs AllocationInfo, older
revision: a wrapper around the raw VmaAllocationInfo). -/
structure AllocationInfo where
  internal : VmaAllocationInfo
deriving DecidableEq, Repr

/-- Native oracle for vmaAllocateMemoryPages: the status it returns and
the contents of the two out arrays after the call, indexed by position.
The wrapper allocates both arrays zero-initialised with allocation_count
elements and the native call writes into them in place. -/
structure AllocateMemoryPagesResponse where
  result : VkResult
  handleAt : Nat → Ptr
  infoAt : Nat → VmaAllocationInfo

/-- Allocator::allocate_memory_pages from src/lib.rs: converts the create
info once, performs a single native vmaAllocateMemoryPages call for all
allocation_count allocations, and on SUCCESS zips the two out arrays into
the returned vector; on any other status returns
Err(Error::vulkan(result)) and no allocations. -/
def Allocator.allocate_memory_pages (self : Allocator) (ffi : AllocateMemoryPagesResponse)
    (memory_requirements : VkMemoryRequirements) (allocation_info : AllocationCreateInfo)
    (allocation_count : Nat) :
    List NativeCall × Except Error (List (Allocation × AllocationInfo)) :=
  let create_info := allocation_create_info_to_ffi allocation_info
  let allocations : List Ptr := (List.range allocation_count).map ffi.handleAt
  let infos : List VmaAllocationInfo := (List.range allocation_count).map ffi.infoAt
  ([NativeCall.vmaAllocateMemoryPages self.internal memory_requirements create_info
      allocation_count],
   if ffi.result = VK_SUCCESS then
     Except.ok ((allocations.zip infos).map
       (fun p => (Allocation.mk p.fst, AllocationInfo.mk p.snd)))
   else
     Except.error (Error.vulkan ffi.result))

/-- Allocator::destroy_buffer from src/lib.rs returns unit and performs
the single native vmaDestroyBuffer call unconditionally; the effect of
that native call on the set of live resources is modelled separately (see
ffiDestroyBuffer). -/
def Allocator.destroy_buffer_trace (self : Allocator) (buffer : Ptr)
    (allocation : Allocation) : List NativeCall × Unit :=
  ([NativeCall.vmaDestroyBuffer self.internal buffer allocation.internal], ())

/-- Allocator::destroy_image from src/lib.rs, trace form as above. -/
def Allocator.destroy_image_trace (self : Allocator) (image : Ptr)
    (allocation : Allocation) : List NativeCall × Unit :=
  ([NativeCall.vmaDestroyImage self.internal image allocation.internal], ())

/-- State of the native library visible to destroy_buffer/destroy_image:
the sets of live buffer, image and allocation handles. -/
structure DeviceState where
  buffers : List Ptr
  images : List Ptr
  allocations : List Ptr
deriving DecidableEq, Repr

/-- Modelled from the spec: the native vmaDestroyBuffer (which lives in
the vendored C++ library, not under src/) destroys the buffer when its
handle is non-null and frees the allocation when its handle is non-null;
a null handle in either position is ignored, so the call never faults and
is a no-op when both are null. -/
def ffiDestroyBuffer (st : DeviceState) (buffer allocation : Ptr) : DeviceState :=
  { st with
    buffers := if buffer ≠ Ptr.null then st.buffers.erase buffer else st.buffers
    allocations :=
      if allocation ≠ Ptr.null then st.allocations.erase allocation else st.allocations }

/-- Modelled from the spec: the native vmaDestroyImage, symmetric to
ffiDestroyBuffer. -/
def ffiDestroyImage (st : DeviceState) (image allocation : Ptr) : DeviceState :=
  { st with
    images := if image ≠ Ptr.null then st.images.erase image else st.images
    allocations :=
      if allocation ≠ Ptr.null then st.allocations.erase allocation else st.allocations }

/-- Allocator::destroy_buffer composed with the modelled native call:
returns the new native state and the unit value the Rust function
returns. -/
def Allocator.destroy_buffer (self : Allocator) (st : DeviceState) (buffer : Ptr)
    (allocation : Allocation) : DeviceState × Unit :=
  let _ := self
  (ffiDestroyBuffer st buffer allocation.internal, ())

/-- Allocator::destroy_image composed with the modelled native call. -/
def Allocator.destroy_image (self : Allocator) (st : DeviceState) (image : Ptr)
    (allocation : Allocation) : DeviceState × Unit :=
  let _ := self
  (ffiDestroyImage st image allocation.internal, ())

end lib

namespace definitions

/-- Intended usage of memory (src/definitions.rs MemoryUsage, newer
revision). -/
inductive MemoryUsage where
  | Unknown
  | GpuOnly
  | CpuOnly
  | CpuToGpu
  | GpuToCpu
  | CpuCopy
  | GpuLazy
  | Auto
  | AutoPreferDevice
  | AutoPreferHost
deriving DecidableEq, Repr

/-- src/definitions.rs AllocationCreateInfo (newer revision). There is no
pool field: the pool is chosen by the Alloc implementor. Bitmask fields
are raw bits; priority is the f32 bit pattern. -/
structure AllocationCreateInfo where
  flags : Nat
  usage : MemoryUsage
  required_flags : Nat
  preferred_flags : Nat
  memory_type_bits : Nat
  user_data : Ptr
  priority : Nat
deriving DecidableEq, Repr

/-- The From(&AllocationCreateInfo) impl for ffi::VmaAllocationCreateInfo
in src/definitions.rs: maps the usage enum to the native code and always
sets pool to null. -/
def AllocationCreateInfo.toFfi (info : AllocationCreateInfo) : VmaAllocationCreateInfo :=
  let usage : Nat :=
    match info.usage with
    | MemoryUsage.Unknown => 0
    | MemoryUsage.GpuOnly => 1
    | MemoryUsage.CpuOnly => 2
    | MemoryUsage.CpuToGpu => 3
    | MemoryUsage.GpuToCpu => 4
    | MemoryUsage.CpuCopy => 5
    | MemoryUsage.GpuLazy => 6
    | MemoryUsage.Auto => 7
    | MemoryUsage.AutoPreferDevice => 8
    | MemoryUsage.AutoPreferHost => 9
  { flags := info.flags
  , usage := usage
  , requiredFlags := info.required_flags
  , preferredFlags := info.preferred_flags
  , memoryTypeBits := info.memory_type_bits
  , pool := Ptr.null
  , pUserData := info.user_data
  , priority := info.priority }

/-- src/definitions.rs VirtualAllocationCreateInfo. -/
structure VirtualAllocationCreateInfo where
  size : Nat
  alignment : Nat
  user_data : Ptr
  flags : Nat
deriving DecidableEq, Repr

/-- The From(&VirtualAllocationCreateInfo) impl for
ffi::VmaVirtualAllocationCreateInfo in src/definitions.rs. -/
def VirtualAllocationCreateInfo.toFfi (info : VirtualAllocationCreateInfo) :
    VmaVirtualAllocationCreateInfo :=
  { size := info.size
  , alignment := info.alignment
  , flags := info.flags
  , pUserData := info.user_data }

end definitions

namespace pool

/-- The two implementors of the Alloc trait in src/pool.rs: the top-level
Allocator, whose pool() returns the null handle, and AllocatorPool, whose
pool() returns its own handle. An AllocatorPool holds an Arc of its
Allocator. -/
inductive AllocImpl where
  | allocatorAlloc (a : Allocator)
  | poolAlloc (a : Allocator) (pool : Ptr)
deriving DecidableEq, Repr

/-- The allocator() method of the Alloc trait: Allocator returns itself,
AllocatorPool returns its stored allocator. -/
def AllocImpl.allocator : AllocImpl → Allocator
  | AllocImpl.allocatorAlloc a => a
  | AllocImpl.poolAlloc a _ => a

/-- The pool() method of the Alloc trait: the null-pool sentinel for
Allocator, the own handle for AllocatorPool. -/
def AllocImpl.pool : AllocImpl → Ptr
  | AllocImpl.allocatorAlloc _ => Ptr.null
  | AllocImpl.poolAlloc _ p => p

/-- Alloc::find_memory_type_index from src/pool.rs: converts the create
info, overwrites its pool field with self.pool(), performs the native
call, and applies ash result translation to the written index. -/
def Alloc.find_memory_type_index (self : AllocImpl) (r : VkResult) (indexWritten : Nat)
    (memory_type_bits : Nat) (allocation_info : definitions.AllocationCreateInfo) :
    List NativeCall × Except VkResult Nat :=
  let ai := { allocation_info.toFfi with pool := self.pool }
  ([NativeCall.vmaFindMemoryTypeIndex self.allocator.internal memory_type_bits ai],
   ashResult r indexWritten)

/-- Alloc::allocate_memory from src/pool.rs. -/
def Alloc.allocate_memory (self : AllocImpl) (r : VkResult) (allocationWritten : Ptr)
    (memory_requirements : VkMemoryRequirements)
    (create_info : definitions.AllocationCreateInfo) :
    List NativeCall × Except VkResult Allocation :=
  let ci := { create_info.toFfi with pool := self.pool }
  ([NativeCall.vmaAllocateMemory self.allocator.internal memory_requirements ci],
   ashResult r (Allocation.mk allocationWritten))

/-- Alloc::allocate_memory_pages from src/pool.rs: one native call for all
allocation_count allocations; the out array is allocated zeroed with
allocation_count elements, written in place by the native call, and on
SUCCESS mapped into the returned vector; any other status is returned as
the error with no allocations. -/
def Alloc.allocate_memory_pages (self : AllocImpl) (r : VkResult) (handleAt : Nat → Ptr)
    (memory_requirements : VkMemoryRequirements)
    (create_info : definitions.AllocationCreateInfo) (allocation_count : Nat) :
    List NativeCall × Except VkResult (List Allocation) :=
  let ci := { create_info.toFfi with pool := self.pool }
  let allocations : List Allocation :=
    ((List.range allocation_count).map handleAt).map Allocation.mk
  ([NativeCall.vmaAllocateMemoryPages self.allocator.internal memory_requirements ci
      allocation_count],
   ashResult r allocations)

/-- Alloc::allocate_memory_for_buffer from src/pool.rs. -/
def Alloc.allocate_memory_for_buffer (self : AllocImpl) (r : VkResult)
    (allocationWritten : Ptr) (buffer : Ptr)
    (create_info : definitions.AllocationCreateInfo) :
    List NativeCall × Except VkResult Allocation :=
  let ci := { create_info.toFfi with pool := self.pool }
  ([NativeCall.vmaAllocateMemoryForBuffer self.allocator.internal buffer ci],
   ashResult r (Allocation.mk allocationWritten))

/-- Alloc::allocate_memory_for_image from src/pool.rs. -/
def Alloc.allocate_memory_for_image (self : AllocImpl) (r : VkResult)
    (allocationWritten : Ptr) (image : Ptr)
    (create_info : definitions.AllocationCreateInfo) :
    List NativeCall × Except VkResult Allocation :=
  let ci := { create_info.toFfi with pool := self.pool }
  ([NativeCall.vmaAllocateMemoryForImage self.allocator.internal image ci],
   ashResult r (Allocation.mk allocationWritten))

/-- Alloc::create_buffer from src/pool.rs. -/
def Alloc.create_buffer (self : AllocImpl) (r : VkResult)
    (bufferWritten allocationWritten : Ptr) (buffer_info : VkBufferCreateInfo)
    (create_info : definitions.AllocationCreateInfo) :
    List NativeCall × Except VkResult (Ptr × Allocation) :=
  let ci := { create_info.toFfi with pool := self.pool }
  ([NativeCall.vmaCreateBuffer self.allocator.internal buffer_info ci],
   ashResult r (bufferWritten, Allocation.mk allocationWritten))

/-- Alloc::create_image from src/pool.rs. -/
def Alloc.create_image (self : AllocImpl) (r : VkResult)
    (imageWritten allocationWritten : Ptr) (image_info : VkImageCreateInfo)
    (create_info : definitions.AllocationCreateInfo) :
    List NativeCall × Except VkResult (Ptr × Allocation) :=
  let ci := { create_info.toFfi with pool := self.pool }
  ([NativeCall.vmaCreateImage self.allocator.internal image_info ci],
   ashResult r (imageWritten, Allocation.mk allocationWritten))

end pool

namespace defragmentation

/-- src/defragmentation.rs DefragmentationContext: a borrowed allocator
and the raw native context handle. -/
structure DefragmentationContext where
  allocator : Allocator
  raw : Ptr
deriving DecidableEq, Repr

/-- Native oracle for one begin-pass/end-pass cycle: the status returned
by vmaBeginDefragmentationPass, the move list it wrote (pMoves with
moveCount entries), and the status returned by
vmaEndDefragmentationPass. -/
structure BeginPassResponse where
  beginResult : VkResult
  movesWritten : List VmaDefragmentationMove
  endResult : VkResult

/-- DefragmentationContext::begin_pass from src/defragmentation.rs: if the
native begin-pass call reports SUCCESS the function returns false at once;
otherwise (the debug assertion that the status is INCOMPLETE compiles out
in release builds) the caller-provided mover runs on the move slice, the
end-pass call is made, and the function returns whether end-pass reported
INCOMPLETE. The return type is Bool; there is no error channel. -/
def DefragmentationContext.begin_pass (self : DefragmentationContext)
    (ffi : BeginPassResponse)
    (mover : List VmaDefragmentationMove → List VmaDefragmentationMove) :
    List NativeCall × Bool :=
  if ffi.beginResult = VK_SUCCESS then
    ([NativeCall.vmaBeginDefragmentationPass self.allocator.internal self.raw], false)
  else
    let moves := mover ffi.movesWritten
    ([NativeCall.vmaBeginDefragmentationPass self.allocator.internal self.raw,
      NativeCall.vmaEndDefragmentationPass self.allocator.internal self.raw moves],
     decide (ffi.endResult = VK_INCOMPLETE))

/-- Native oracle for vmaEndDefragmentation: the statistics it writes when
given a non-null stats out-pointer. -/
structure EndDefragmentationResponse where
  stats : VmaDefragmentationStats
deriving DecidableEq, Repr

/-- DefragmentationContext::end from src/defragmentation.rs (named
endContext here; end is a Lean keyword): performs the native
vmaEndDefragmentation call with a non-null stats out-pointer, then
mem::forget(self) so the Drop impl never runs. Returns the stats, the
trace, and the forgotten flag (true means the drop glue is suppressed). -/
def DefragmentationContext.endContext (self : DefragmentationContext)
    (ffi : EndDefragmentationResponse) :
    VmaDefragmentationStats × List NativeCall × Bool :=
  (ffi.stats,
   [NativeCall.vmaEndDefragmentation self.allocator.internal self.raw false],
   true)

/-- Drop for DefragmentationContext from src/defragmentation.rs: performs
the native vmaEndDefragmentation call with a null stats pointer, so the
statistics are discarded. -/
def DefragmentationContext.dropContext (self : DefragmentationContext) :
    List NativeCall :=
  [NativeCall.vmaEndDefragmentation self.allocator.internal self.raw true]

/-- How a context reaches the end of its life in safe Rust: either the
caller consumes it with end, or it goes out of scope and the drop glue
runs. Rust ownership makes these the only two cases and makes them
mutually exclusive. -/
inductive ContextUse where
  | explicitEnd
  | implicitDrop
deriving DecidableEq, Repr

/-- The complete native-call trace over a context lifetime: end followed
by the drop glue only if end did not forget the value, or the drop glue
alone. -/
def DefragmentationContext.lifetimeTrace (self : DefragmentationContext)
    (ffi : EndDefragmentationResponse) : ContextUse → List NativeCall
  | ContextUse.explicitEnd =>
      let e := self.endContext ffi
      e.snd.fst ++ (if e.snd.snd then [] else self.dropContext)
  | ContextUse.implicitDrop => self.dropContext

end defragmentation

namespace virtual_block

/-- Represents a single virtual allocation inside a VirtualBlock
(src/virtual_block.rs VirtualAllocation, a newtype over the raw
handle). -/
structure VirtualAllocation where
  raw : Ptr
deriving DecidableEq, Repr

/-- Modelled from the spec: the state of a virtual block, which lives in
the vendored native library and is not under src/. It manages a purely
notional address range: a total size and the set of live (offset, size)
ranges carved from it. -/
structure VirtualBlockState where
  size : Nat
  allocations : List (Nat × Nat)
deriving DecidableEq, Repr

/-- Alignment normalisation per the spec: the special value 0 has the same
meaning as 1. -/
def alignOf (alignment : Nat) : Nat :=
  if alignment = 0 then 1 else alignment

/-- Whether the range [off, off + sz) lies inside the block and overlaps
no live allocation. -/
def rangeFits (st : VirtualBlockState) (off sz : Nat) : Bool :=
  decide (off + sz ≤ st.size) &&
    st.allocations.all (fun a => decide (off + sz ≤ a.fst) || decide (a.fst + a.snd ≤ off))

/-- Whether a free range of the requested size and (normalised) alignment
exists anywhere in the block. -/
def freeRangeExists (st : VirtualBlockState) (sz alignment : Nat) : Bool :=
  (List.range (st.size + 1)).any
    (fun off => decide (off % alignOf alignment = 0) && rangeFits st off sz)

/-- Modelled from the spec: the native vmaVirtualAllocate (vendored C++,
not under src/). It places the request at a suitably aligned free offset
when one exists, returning SUCCESS, a handle and the assigned offset;
when no free range of the requested size and alignment exists it fails
with ERROR_OUT_OF_DEVICE_MEMORY despite no device memory being involved.
The handle representation is opaque in the native library; the model uses
offset + 1 so that handles are never null. -/
def vmaVirtualAllocate (st : VirtualBlockState) (info : VmaVirtualAllocationCreateInfo) :
    VkResult × Ptr × Nat × VirtualBlockState :=
  match (List.range (st.size + 1)).find?
      (fun off => decide (off % alignOf info.alignment = 0) && rangeFits st off info.size) with
  | some off =>
      (VK_SUCCESS, off + 1, off, { st with allocations := (off, info.size) :: st.allocations })
  | none => (VK_ERROR_OUT_OF_DEVICE_MEMORY, Ptr.null, 0, st)

/-- VirtualBlock::allocate from src/virtual_block.rs: converts the create
info, calls the native vmaVirtualAllocate with zeroed out variables,
applies the ash result translation, and on success returns the
virtual-allocation handle together with its assigned byte offset. Also
returns the block state left by the native call. -/
def VirtualBlock.allocate (st : VirtualBlockState)
    (allocation_info : definitions.VirtualAllocationCreateInfo) :
    Except VkResult (VirtualAllocation × Nat) × VirtualBlockState :=
  let create_info := allocation_info.toFfi
  match vmaVirtualAllocate st create_info with
  | (result, allocation, offset, st2) =>
      (if result = VK_SUCCESS then
         Except.ok (VirtualAllocation.mk allocation, offset)
       else
         Except.error result,
       st2)

end virtual_block

/-- Modelled from the spec, for comparison only: unmap as claim C1 words
it — on an allocation whose mapped flag is false the call fails with a
previously-unmapped class error. This is the spec-side refinement target
that the source embedding lib.Allocator.unmap_memory is compared
against. -/
def unmap_memory_specClaim (mapped : Bool) : Except String Unit :=
  if mapped then Except.ok () else Except.error "PreviouslyUnmapped"

/-- C1 counterexample: on a concrete never-mapped allocation the source
unmap_memory silently succeeds — it returns unit after one forwarded
native call and has no error channel at all — whereas the claim (second
conjunct, the spec-side model at the same situation) demands a
previously-unmapped error. -/
theorem C1_counterexample :
    lib.Allocator.unmap_memory (Allocator.mk 7) (Allocation.mk 3) =
      ([NativeCall.vmaUnmapMemory 7 3], ()) ∧
    unmap_memory_specClaim false = Except.error "PreviouslyUnmapped" :=
  ⟨rfl, rfl⟩

/-- C1 (amended): Allocator::unmap_memory in this revision never fails:
for every allocator and every allocation — mapped or not — it returns
unit and performs exactly the single forwarded native vmaUnmapMemory
call. There is no previously-unmapped guard (ErrorKind has no such
variant); this is the earlier-revision behaviour the spec itself
describes. -/
theorem C1_unmap_never_fails (a : Allocator) (al : Allocation) :
    lib.Allocator.unmap_memory a al =
      ([NativeCall.vmaUnmapMemory a.internal al.internal], ()) :=
  rfl

/-- C2: Allocator::destroy is idempotent: after any destroy the internal
handle is the null sentinel; a second destroy, and likewise the implicit
Drop teardown, performs no native call and leaves the state unchanged;
and the first destroy of a live (non-null) allocator performs exactly the
one native vmaDestroyAllocator call. -/
theorem C2_destroy_idempotent (s : Allocator) :
    ((lib.Allocator.destroy s).snd.internal = Ptr.null) ∧
    (lib.Allocator.destroy (lib.Allocator.destroy s).snd =
      ([], (lib.Allocator.destroy s).snd)) ∧
    (lib.Allocator.dropAllocator (lib.Allocator.destroy s).snd =
      ([], (lib.Allocator.destroy s).snd)) ∧
    (s.internal ≠ Ptr.null →
      (lib.Allocator.destroy s).fst = [NativeCall.vmaDestroyAllocator s.internal]) := by
  unfold lib.Allocator.dropAllocator lib.Allocator.destroy
  by_cases h : s.internal = Ptr.null <;>
    simp only [Ptr.null] at h ⊢ <;> simp [h]

/-- C2 witness: the theorem applied to the concrete live allocator with
handle 5. -/
theorem C2_destroy_idempotent_witness :
    (Allocator.mk 5).internal ≠ Ptr.null ∧
    (lib.Allocator.destroy (Allocator.mk 5)).fst = [NativeCall.vmaDestroyAllocator 5] :=
  ⟨by decide, (C2_destroy_idempotent (Allocator.mk 5)).2.2.2 (by decide)⟩

/-- C3 counterexample: when the native create call reports SUCCESS but
leaves the zero-initialised out variable untouched (a null handle),
Allocator::new still returns Ok carrying the null handle — refuting the
claim that new returns Ok only if the resulting handle is non-null. -/
theorem C3_counterexample :
    (lib.Allocator.new (lib.AllocatorCreateInfo.mk 0 0 0 0 0 0 none)
        (lib.CreateAllocatorResponse.mk VK_SUCCESS Ptr.null)).snd =
      Except.ok (Allocator.mk Ptr.null) :=
  rfl

/-- C3 (amended): Allocator::new returns an error — Err(Error::vulkan)
wrapping the native status — whenever the native create call reports any
status other than success, and returns Ok exactly when the native call
reports success, carrying whatever handle value the native call produced;
no non-null check of the handle is performed. -/
theorem C3_new_ok_iff_native_success (info : lib.AllocatorCreateInfo)
    (ffi : lib.CreateAllocatorResponse) :
    ((lib.Allocator.new info ffi).snd = Except.ok (Allocator.mk ffi.handleWritten) ↔
      ffi.result = VK_SUCCESS) ∧
    (ffi.result ≠ VK_SUCCESS →
      (lib.Allocator.new info ffi).snd = Except.error (Error.vulkan ffi.result)) := by
  unfold lib.Allocator.new
  by_cases h : ffi.result = VK_SUCCESS <;> simp [h]

/-- C3 witness: the amended theorem applied at a concrete failing status
(-1, ERROR_OUT_OF_HOST_MEMORY). -/
theorem C3_new_ok_iff_native_success_witness :
    ((-1 : VkResult) ≠ VK_SUCCESS) ∧
    (lib.Allocator.new (lib.AllocatorCreateInfo.mk 0 0 0 0 0 0 none)
        (lib.CreateAllocatorResponse.mk (-1) 0)).snd =
      Except.error (Error.vulkan (-1)) :=
  ⟨by decide,
   (C3_new_ok_iff_native_success (lib.AllocatorCreateInfo.mk 0 0 0 0 0 0 none)
      (lib.CreateAllocatorResponse.mk (-1) 0)).2 (by decide)⟩

/-- C4: allocate_memory_pages is a single-native-call batch that is atomic
all-or-nothing at the wrapper level, in both revisions: the whole request
is one native vmaAllocateMemoryPages call carrying the one converted
create info and the count n (so all n allocations share the same
parameters); on native success the caller receives Ok with exactly n
allocations; on any native failure the caller receives the error and no
allocations. -/
theorem C4_allocate_memory_pages_atomic (self : Allocator)
    (ffi : lib.AllocateMemoryPagesResponse) (req : VkMemoryRequirements)
    (info : lib.AllocationCreateInfo) (n : Nat)
    (self2 : pool.AllocImpl) (r2 : VkResult) (handleAt2 : Nat → Ptr)
    (info2 : definitions.AllocationCreateInfo) :
    ((lib.Allocator.allocate_memory_pages self ffi req info n).fst =
      [NativeCall.vmaAllocateMemoryPages self.internal req
        (lib.allocation_create_info_to_ffi info) n]) ∧
    (ffi.result = VK_SUCCESS →
      ((lib.Allocator.allocate_memory_pages self ffi req info n).snd.map
        List.length) = Except.ok n) ∧
    (ffi.result ≠ VK_SUCCESS →
      (lib.Allocator.allocate_memory_pages self ffi req info n).snd =
        Except.error (Error.vulkan ffi.result)) ∧
    ((pool.Alloc.allocate_memory_pages self2 r2 handleAt2 req info2 n).fst =
      [NativeCall.vmaAllocateMemoryPages self2.allocator.internal req
        { info2.toFfi with pool := self2.pool } n]) ∧
    (r2 = VK_SUCCESS →
      ((pool.Alloc.allocate_memory_pages self2 r2 handleAt2 req info2 n).snd.map
        List.length) = Except.ok n) ∧
    (r2 ≠ VK_SUCCESS →
      (pool.Alloc.allocate_memory_pages self2 r2 handleAt2 req info2 n).snd =
        Except.error r2) := by
  unfold lib.Allocator.allocate_memory_pages pool.Alloc.allocate_memory_pages ashResult
  refine ⟨rfl, ?_, ?_, rfl, ?_, ?_⟩
  · intro h
    simp [h, Except.map]
  · intro h
    simp [h]
  · intro h
    simp [h, Except.map]
  · intro h
    simp [h]

/-- C4 witness: both versions applied at a concrete successful batch of
two allocations, each returning Ok with exactly two allocations. -/
theorem C4_allocate_memory_pages_atomic_witness :
    ((lib.Allocator.allocate_memory_pages (Allocator.mk 1)
        (lib.AllocateMemoryPagesResponse.mk VK_SUCCESS (fun i => i + 10)
          (fun _ => VmaAllocationInfo.mk 0 0 0 0 0 0))
        (VkMemoryRequirements.mk 64 16 1)
        (lib.AllocationCreateInfo.mk lib.MemoryUsage.Unknown 0 0 0 0 none none)
        2).snd.map List.length) = Except.ok 2 ∧
    ((pool.Alloc.allocate_memory_pages (pool.AllocImpl.poolAlloc (Allocator.mk 1) 9)
        VK_SUCCESS (fun i => i + 20) (VkMemoryRequirements.mk 64 16 1)
        (definitions.AllocationCreateInfo.mk 0 definitions.MemoryUsage.Auto 0 0 0 0 0)
        2).snd.map List.length) = Except.ok 2 :=
  ⟨(C4_allocate_memory_pages_atomic (Allocator.mk 1)
      (lib.AllocateMemoryPagesResponse.mk VK_SUCCESS (fun i => i + 10)
        (fun _ => VmaAllocationInfo.mk 0 0 0 0 0 0))
      (VkMemoryRequirements.mk 64 16 1)
      (lib.AllocationCreateInfo.mk lib.MemoryUsage.Unknown 0 0 0 0 none none) 2
      (pool.AllocImpl.poolAlloc (Allocator.mk 1) 9) VK_SUCCESS (fun i => i + 20)
      (definitions.AllocationCreateInfo.mk 0 definitions.MemoryUsage.Auto 0 0 0 0 0)).2.1
    rfl,
   (C4_allocate_memory_pages_atomic (Allocator.mk 1)
      (lib.AllocateMemoryPagesResponse.mk VK_SUCCESS (fun i => i + 10)
        (fun _ => VmaAllocationInfo.mk 0 0 0 0 0 0))
      (VkMemoryRequirements.mk 64 16 1)
      (lib.AllocationCreateInfo.mk lib.MemoryUsage.Unknown 0 0 0 0 none none) 2
      (pool.AllocImpl.poolAlloc (Allocator.mk 1) 9) VK_SUCCESS (fun i => i + 20)
      (definitions.AllocationCreateInfo.mk 0 definitions.MemoryUsage.Auto 0 0 0 0 0)).2.2.2.2.1
    rfl⟩

/-- C5: begin_pass reports the terminal no-more-moves condition as the
boolean false — returned immediately, with no error, when the native
begin-pass call reports plain SUCCESS — and returns true exactly when the
pass protocol continues (begin-pass did not report SUCCESS) and the
end-pass call reports INCOMPLETE. -/
theorem C5_begin_pass_terminal (self : defragmentation.DefragmentationContext)
    (ffi : defragmentation.BeginPassResponse)
    (mover : List VmaDefragmentationMove → List VmaDefragmentationMove) :
    (ffi.beginResult = VK_SUCCESS →
      defragmentation.DefragmentationContext.begin_pass self ffi mover =
        ([NativeCall.vmaBeginDefragmentationPass self.allocator.internal self.raw],
         false)) ∧
    ((defragmentation.DefragmentationContext.begin_pass self ffi mover).snd = true ↔
      (ffi.beginResult ≠ VK_SUCCESS ∧ ffi.endResult = VK_INCOMPLETE)) := by
  unfold defragmentation.DefragmentationContext.begin_pass
  by_cases h : ffi.beginResult = VK_SUCCESS <;> simp [h]

/-- C5 witness: a concrete pass where the native begin-pass call reports
SUCCESS, so begin_pass returns false after the single native call. -/
theorem C5_begin_pass_terminal_witness :
    defragmentation.DefragmentationContext.begin_pass
        (defragmentation.DefragmentationContext.mk (Allocator.mk 1) 2)
        (defragmentation.BeginPassResponse.mk VK_SUCCESS [] VK_SUCCESS) id =
      ([NativeCall.vmaBeginDefragmentationPass 1 2], false) :=
  (C5_begin_pass_terminal
      (defragmentation.DefragmentationContext.mk (Allocator.mk 1) 2)
      (defragmentation.BeginPassResponse.mk VK_SUCCESS [] VK_SUCCESS) id).1 rfl

/-- C6: every allocation operation of the shared Alloc capability routes
through the callee's own pool: the FFI create info passed to the single
native call of each operation carries pool = self.pool() regardless of
the caller-supplied AllocationCreateInfo (whose conversion always sets
pool to null before the overwrite), and the two implementors yield the
null-pool sentinel (top-level Allocator) and the own handle
(AllocatorPool) respectively. -/
theorem C6_alloc_routes_through_own_pool (self : pool.AllocImpl)
    (r : VkResult) (idx mtb n : Nat) (info : definitions.AllocationCreateInfo)
    (allocW bufW imgW buffer image : Ptr) (req : VkMemoryRequirements)
    (handleAt : Nat → Ptr) (binfo : VkBufferCreateInfo) (iinfo : VkImageCreateInfo)
    (a : Allocator) (ph : Ptr) :
    ((pool.Alloc.find_memory_type_index self r idx mtb info).fst.map
        NativeCall.createInfoPool = [some self.pool]) ∧
    ((pool.Alloc.allocate_memory self r allocW req info).fst.map
        NativeCall.createInfoPool = [some self.pool]) ∧
    ((pool.Alloc.allocate_memory_pages self r handleAt req info n).fst.map
        NativeCall.createInfoPool = [some self.pool]) ∧
    ((pool.Alloc.allocate_memory_for_buffer self r allocW buffer info).fst.map
        NativeCall.createInfoPool = [some self.pool]) ∧
    ((pool.Alloc.allocate_memory_for_image self r allocW image info).fst.map
        NativeCall.createInfoPool = [some self.pool]) ∧
    ((pool.Alloc.create_buffer self r bufW allocW binfo info).fst.map
        NativeCall.createInfoPool = [some self.pool]) ∧
    ((pool.Alloc.create_image self r imgW allocW iinfo info).fst.map
        NativeCall.createInfoPool = [some self.pool]) ∧
    (pool.AllocImpl.pool (pool.AllocImpl.allocatorAlloc a) = Ptr.null) ∧
    (pool.AllocImpl.pool (pool.AllocImpl.poolAlloc a ph) = ph) :=
  ⟨rfl, rfl, rfl, rfl, rfl, rfl, rfl, rfl, rfl⟩

/-- C8: flush_allocation and invalidate_allocation never surface an error:
for every allocator, allocation, offset and size they forward the exact
arguments to the single native call and return unit unconditionally (their
signatures have no error channel; the zero-size and host-coherent cases
are silently ignored inside the native call). -/
theorem C8_flush_invalidate_never_error (a : Allocator) (al : Allocation)
    (offset size : Nat) :
    lib.Allocator.flush_allocation a al offset size =
      ([NativeCall.vmaFlushAllocation a.internal al.internal offset size], ()) ∧
    lib.Allocator.invalidate_allocation a al offset size =
      ([NativeCall.vmaInvalidateAllocation a.internal al.internal offset size], ()) :=
  ⟨rfl, rfl⟩

/-- C9: destroy_buffer and destroy_image are safe with null handles: with
a null resource and a null allocation the composed call leaves the native
state unchanged (a no-op), the wrapper returns unit for every input
(total, no fault, no error channel), and a null allocation reference alone
never touches the live-allocation set. -/
theorem C9_destroy_null_noop (a : Allocator) (st : lib.DeviceState) (b i : Ptr)
    (al : Allocation) :
    (lib.Allocator.destroy_buffer a st Ptr.null Allocation.null = (st, ())) ∧
    (lib.Allocator.destroy_image a st Ptr.null Allocation.null = (st, ())) ∧
    ((lib.Allocator.destroy_buffer a st b al).snd = ()) ∧
    ((lib.Allocator.destroy_image a st i al).snd = ()) ∧
    ((lib.Allocator.destroy_buffer a st b Allocation.null).fst.allocations =
      st.allocations) ∧
    ((lib.Allocator.destroy_image a st i Allocation.null).fst.allocations =
      st.allocations) := by
  unfold lib.Allocator.destroy_buffer lib.Allocator.destroy_image
    lib.ffiDestroyBuffer lib.ffiDestroyImage
  simp [Allocation.null, Ptr.null]

/-- C10: over a defragmentation context lifetime the native
vmaEndDefragmentation call happens exactly once, whichever way the
lifetime ends: end performs it with a non-null stats pointer and returns
the statistics the native call wrote, then forgets the value so the drop
glue is suppressed; a context dropped without end performs it from Drop
with a null stats pointer (statistics discarded). -/
theorem C10_end_defragmentation_exactly_once
    (self : defragmentation.DefragmentationContext)
    (ffi : defragmentation.EndDefragmentationResponse)
    (use : defragmentation.ContextUse) :
    ((defragmentation.DefragmentationContext.lifetimeTrace self ffi use).countP
        NativeCall.isEndDefragmentation = 1) ∧
    ((defragmentation.DefragmentationContext.endContext self ffi).fst = ffi.stats) ∧
    (defragmentation.DefragmentationContext.lifetimeTrace self ffi
        defragmentation.ContextUse.explicitEnd =
      [NativeCall.vmaEndDefragmentation self.allocator.internal self.raw false]) ∧
    (defragmentation.DefragmentationContext.lifetimeTrace self ffi
        defragmentation.ContextUse.implicitDrop =
      [NativeCall.vmaEndDefragmentation self.allocator.internal self.raw true]) := by
  cases use <;>
    simp [defragmentation.DefragmentationContext.lifetimeTrace,
      defragmentation.DefragmentationContext.endContext,
      defragmentation.DefragmentationContext.dropContext,
      NativeCall.isEndDefragmentation, List.countP, List.countP.go]

/-- C7: VirtualBlock::allocate on a request with positive size and with
alignment 0 meaning 1: when no free range of the requested size and
normalised alignment exists in the block it fails with
ERROR_OUT_OF_DEVICE_MEMORY (although no device memory is involved), and
when one exists it returns Ok with a virtual-allocation handle together
with an assigned byte offset that is aligned and fits a free range. -/
theorem C7_virtual_allocate (st : virtual_block.VirtualBlockState)
    (info : definitions.VirtualAllocationCreateInfo) (hsz : 0 < info.size) :
    (virtual_block.freeRangeExists st info.size info.alignment = false →
      (virtual_block.VirtualBlock.allocate st info).fst =
        Except.error VK_ERROR_OUT_OF_DEVICE_MEMORY) ∧
    (virtual_block.freeRangeExists st info.size info.alignment = true →
      ∃ va off, (virtual_block.VirtualBlock.allocate st info).fst =
        Except.ok (va, off) ∧
        off % virtual_block.alignOf info.alignment = 0 ∧
        virtual_block.rangeFits st off info.size = true) := by
  cases hfind : (List.range (st.size + 1)).find?
      (fun off =>
        decide (off % virtual_block.alignOf
          (definitions.VirtualAllocationCreateInfo.toFfi info).alignment = 0) &&
        virtual_block.rangeFits st off
          (definitions.VirtualAllocationCreateInfo.toFfi info).size) with
  | none =>
      constructor
      · intro _
        simp only [virtual_block.VirtualBlock.allocate, virtual_block.vmaVirtualAllocate,
          hfind]
        simp [VK_ERROR_OUT_OF_DEVICE_MEMORY, VK_SUCCESS]
      · intro htrue
        exfalso
        have hnone := List.find?_eq_none.mp hfind
        obtain ⟨off, hmem, hp⟩ := List.any_eq_true.mp htrue
        exact hnone off hmem hp
  | some off =>
      have hp := List.find?_some hfind
      have hmem := List.mem_of_find?_eq_some hfind
      have hpBool :
          (off % virtual_block.alignOf info.alignment = 0) ∧
          virtual_block.rangeFits st off info.size = true := by
        have hp2 := hp
        simp only [Bool.and_eq_true, decide_eq_true_eq] at hp2
        exact hp2
      constructor
      · intro hfalse
        exfalso
        have htrue : virtual_block.freeRangeExists st info.size info.alignment = true :=
          List.any_eq_true.mpr ⟨off, hmem, hp⟩
        rw [hfalse] at htrue
        exact Bool.false_ne_true htrue
      · intro _
        refine ⟨virtual_block.VirtualAllocation.mk (off + 1), off, ?_, hpBool.1, hpBool.2⟩
        simp only [virtual_block.VirtualBlock.allocate, virtual_block.vmaVirtualAllocate,
          hfind]
        simp [VK_SUCCESS]

/-- C7 witness: a fully occupied block of size 4 has no free range for a
size-1 request, so the theorem yields the concrete
ERROR_OUT_OF_DEVICE_MEMORY failure. -/
theorem C7_virtual_allocate_witness :
    (0 < (definitions.VirtualAllocationCreateInfo.mk 1 0 0 0).size) ∧
    ((virtual_block.VirtualBlock.allocate
        (virtual_block.VirtualBlockState.mk 4 [(0, 4)])
        (definitions.VirtualAllocationCreateInfo.mk 1 0 0 0)).fst =
      Except.error VK_ERROR_OUT_OF_DEVICE_MEMORY) :=
  ⟨by decide,
   (C7_virtual_allocate (virtual_block.VirtualBlockState.mk 4 [(0, 4)])
      (definitions.VirtualAllocationCreateInfo.mk 1 0 0 0) (by decide)).1 (by decide)⟩

end VkMem
